import Mathlib

/-!
Verification of the ingestion/decision/dedup loop of `insta_mukuu_bot.py`.

The Python source is shallowly embedded below.  Dictionary lookups such as
`item.get("item_id")` become `Option String` fields; Python's truthiness-based
`a or b` becomes `pyOr`; the network (Instagram fetches, the OpenRouter HTTP
call, file writes) is abstracted into an `Env` of oracles, and the observable
side effects of a cycle (generation calls, outbound sends, state-file saves)
are collected into an explicit event trace.
-/

namespace MukuuBot

/-- Python `a or b` on optional strings: `None` and the empty string are falsy,
so the left operand is kept only when it is a non-empty string. -/
def pyOr (a b : Option String) : Option String :=
  match a with
  | some s => if s = "" then b else some s
  | none => b

/-- Python `str.lower()` (ASCII case folding; the handles and texts the bot
compares are mapped character by character). -/
def pyLower (s : String) : String :=
  ⟨s.data.map Char.toLower⟩

/-- Python `str.strip()`: drop whitespace from both ends. -/
def pyStrip (s : String) : String :=
  ⟨((s.data.dropWhile Char.isWhitespace).reverse.dropWhile Char.isWhitespace).reverse⟩

/-- `pattern` occurs at the very start of `l` (Python `str.startswith`). -/
def charsBeginWith : List Char → List Char → Bool
  | [], _ => true
  | _ :: _, [] => false
  | c :: cs, d :: ds => c == d && charsBeginWith cs ds

/-- `needle` occurs contiguously somewhere in `hay` (Python `needle in hay`). -/
def charsContain (hay needle : List Char) : Bool :=
  match hay with
  | [] => needle.isEmpty
  | _ :: rest => charsBeginWith needle hay || charsContain rest needle

/-- Python `needle in hay` on strings. -/
def pyIn (needle hay : String) : Bool :=
  charsContain hay.data needle.data

/-- A message item as the bot reads it from a thread dictionary
(`insta_mukuu_bot.py` lines 139-145): only the keys the loop consults. -/
structure Item where
  item_id : Option String
  id : Option String
  pk : Option String
  text : Option String
  message : Option String

/-- `item.get("item_id") or item.get("id") or item.get("pk")` followed by the
`if not msg_id` falsiness test (lines 140-141): `none` when no usable id. -/
def msgIdOf (it : Item) : Option String :=
  match pyOr (pyOr it.item_id it.id) it.pk with
  | some s => if s = "" then none else some s
  | none => none

/-- `item.get("text") or item.get("message") or ""` (line 144). -/
def itemText (it : Item) : String :=
  (pyOr it.text it.message).getD ""

/-- A conversation thread from the inbox listing (lines 126-137): the id keys,
the topology fields read by `is_group_thread`, and the embedded item list used
as a fallback when fetching the thread detail fails. -/
structure Thread where
  thread_id : Option String
  id : Option String
  pk : Option String
  participants_count : Option Int
  users : Option (List String)
  thread_type : Option String
  items : List Item

/-- `thread.get("thread_id") or thread.get("id") or thread.get("pk")` with the
`if not thread_id` falsiness test (lines 127-129). -/
def tidOf (t : Thread) : Option String :=
  match pyOr (pyOr t.thread_id t.id) t.pk with
  | some s => if s = "" then none else some s
  | none => none

/-- `is_group_thread` (lines 87-105): participants_count when available, else a
non-empty users list, else `thread_type == "group"`, else not a group. -/
def is_group_thread (t : Thread) : Bool :=
  match t.participants_count with
  | some n => decide (n > 2)
  | none =>
    match t.users with
    | some us =>
      if us.isEmpty then decide (t.thread_type = some "group")
      else decide (us.length > 2)
    | none => decide (t.thread_type = some "group")

/-- `thread_contains_mention` (lines 107-113): empty text never mentions; else
look for `"@" + BOT_USERNAME.lower()` or the bare lowered handle in the lowered
text. -/
def thread_contains_mention (bot text : String) : Bool :=
  if text = "" then false
  else
    pyIn ("@" ++ pyLower bot) (pyLower text) || pyIn (pyLower bot) (pyLower text)

/-- The `should_reply` decision of the item loop (lines 153-162): a group
thread replies only on a mention, a direct thread replies unconditionally. -/
def should_reply (bot : String) (t : Thread) (text : String) : Bool :=
  if is_group_thread t then thread_contains_mention bot text else true

/-- The outcome of the `requests.post` call inside `ask_mukuu`: a response
with a status code, raw body text and the parsed
`choices[0].message.content` string when the body has that shape (`none`
covers a malformed body, whose lookup raises and is caught), or a raised
transport exception. -/
inductive HttpOutcome where
  | resp (status : Nat) (bodyText : String) (content : Option String)
  | exn (detail : String)

/-- `ask_mukuu` (lines 44-66): non-200 becomes an `"[API …]"` string, a raised
exception becomes an `"[ERROR] …"` string, and a well-formed 200 response
returns the content stripped of surrounding whitespace. -/
def ask_mukuu (r : HttpOutcome) : String :=
  match r with
  | .exn detail => "[ERROR] " ++ detail
  | .resp status bodyText content =>
    if status ≠ 200 then "[API " ++ toString status ++ "] " ++ bodyText
    else
      match content with
      | some c => pyStrip c
      | none => "[ERROR] " ++ "missing or non-string completion content"

/-- The error test of line 173: `reply.startswith("[API") or
reply.startswith("[ERROR")`. -/
def sentinelSkip (reply : String) : Bool :=
  charsBeginWith "[API".data reply.data || charsBeginWith "[ERROR".data reply.data

/-- The external world of one cycle: `fetch` is `cl.direct_thread` (returning
`none` when it raises), `provider` is the OpenRouter HTTP exchange keyed by the
user text sent, and `saveOk k` tells whether the k-th `save_processed` call of
the cycle succeeds or raises an IO error. -/
structure Env where
  fetch : String → Option (List Item)
  provider : String → HttpOutcome
  saveOk : Nat → Bool

/-- Observable side effects of a cycle: a generation request to the completion
provider, an outbound `cl.direct_send`, and a successful state-file save. -/
inductive Event where
  | gen (userText : String)
  | send (threadId : String) (reply : String)
  | save (ids : Finset String)

/-- One iteration of the item loop (lines 139-183): skip when the id is falsy
or already processed; otherwise decide eligibility, generate and (unless the
reply is flagged as an API error) send, and always mark the id processed. -/
def processItem (bot : String) (env : Env) (tid : String) (t : Thread)
    (p : Finset String) (it : Item) : Finset String × List Event :=
  match msgIdOf it with
  | none => (p, [])
  | some m =>
    if m ∈ p then (p, [])
    else
      let text := itemText it
      let evs :=
        if should_reply bot t text then
          let reply := ask_mukuu (env.provider text)
          if sentinelSkip reply then [Event.gen text]
          else [Event.gen text, Event.send tid reply]
        else []
      (insert m p, evs)

/-- The item loop over one thread's items, oldest to newest (line 139). -/
def process_items (bot : String) (env : Env) (tid : String) (t : Thread) :
    List Item → Finset String → Finset String × List Event
  | [], p => (p, [])
  | it :: rest, p =>
    let s₁ := processItem bot env tid t p it
    let s₂ := process_items bot env tid t rest s₁.1
    (s₂.1, s₁.2 ++ s₂.2)

/-- Lines 130-137: the items actually iterated for a thread — the fetched
detail when `cl.direct_thread` succeeds, else the items embedded in the inbox
listing entry. -/
def threadItems (env : Env) (tid : String) (t : Thread) : List Item :=
  match env.fetch tid with
  | some its => its
  | none => t.items

/-- The thread loop of `process_inbox` (lines 126-185) with the per-thread
`save_processed` call.  `save_processed` is not wrapped in a try/except, so a
failing save raises: the third component records that the cycle aborted there,
with the remaining threads unprocessed. -/
def process_threads (bot : String) (env : Env) :
    List Thread → Finset String → Nat → Finset String × List Event × Bool
  | [], p, _ => (p, [], false)
  | t :: rest, p, k =>
    match tidOf t with
    | none => process_threads bot env rest p k
    | some tid =>
      let s₁ := process_items bot env tid t (threadItems env tid t) p
      if env.saveOk k then
        let s₂ := process_threads bot env rest s₁.1 (k + 1)
        (s₂.1, s₁.2 ++ Event.save s₁.1 :: s₂.2.1, s₂.2.2)
      else
        (s₁.1, s₁.2, true)

/-- `process_inbox` over a scan result (the thread list of
`inbox["inbox"]["threads"]`) starting from the in-memory processed set. -/
def process_inbox (bot : String) (env : Env) (threads : List Thread)
    (p : Finset String) : Finset String × List Event × Bool :=
  process_threads bot env threads p 0

/-- One iteration of `main_loop` (lines 189-195): `process_inbox` runs under a
catch-all, so whatever happened the process keeps the in-memory set reached and
continues with the next cycle. -/
def main_cycle (bot : String) (env : Env) (threads : List Thread)
    (p : Finset String) : Finset String :=
  (process_inbox bot env threads p).1

/-- State of the persisted `processed_ids.json` file: absent, present but not
parseable as JSON, or a stored JSON array of identifier strings. -/
inductive FileState where
  | missing
  | invalid (raw : String)
  | stored (ids : List String)

/-- `open(PROCESSED_FILE)` followed by `json.load`: raises on a missing file or
unparseable contents, otherwise yields the stored array. -/
def readAndParse : FileState → Except String (List String)
  | .missing => .error "FileNotFoundError"
  | .invalid _ => .error "JSONDecodeError"
  | .stored l => .ok l

/-- `load_processed` (lines 32-37): `set(json.load(f))` under a catch-all
`except Exception: return set()`. -/
def load_processed (fs : FileState) : Finset String :=
  match readAndParse fs with
  | .error _ => ∅
  | .ok l => l.toFinset

/-- `save_processed` (lines 39-41): `json.dump(list(s), f)`.  Python
enumerates the set in an unspecified order; the embedding picks a concrete
one (sorted), which is one admissible serialization. -/
def save_processed (s : Finset String) : FileState :=
  .stored (s.sort (· ≤ ·))

/-- Whether an event is an outbound send. -/
def isSendEvent : Event → Bool
  | .send _ _ => true
  | _ => false

/-- Whether an event is a generation request to the completion provider. -/
def isGenEvent : Event → Bool
  | .gen _ => true
  | _ => false

/-- Number of outbound sends (replies) in a trace. -/
def countSends (evs : List Event) : Nat :=
  evs.countP isSendEvent

/-- Number of generation calls in a trace. -/
def countGens (evs : List Event) : Nat :=
  evs.countP isGenEvent

/-- The usable message ids of an item list, in order. -/
def validItemIds (items : List Item) : List String :=
  items.filterMap msgIdOf

/-- All usable message ids a cycle iterates over, in processing order:
threads without a usable thread id are skipped whole, the others contribute
the ids of the item list the loop actually walks. -/
def cycleIds (env : Env) : List Thread → List String
  | [] => []
  | t :: rest =>
    (match tidOf t with
     | none => []
     | some tid => validItemIds (threadItems env tid t)) ++ cycleIds env rest

/-- An item the loop would reply to: it has a usable id and the eligibility
decision on its text is positive. -/
def eligibleItem (bot : String) (t : Thread) (it : Item) : Bool :=
  (msgIdOf it).isSome && should_reply bot t (itemText it)

/-- Number of eligible items a cycle encounters, thread by thread. -/
def eligibleCount (bot : String) (env : Env) : List Thread → Nat
  | [] => 0
  | t :: rest =>
    (match tidOf t with
     | none => 0
     | some tid => (threadItems env tid t).countP (eligibleItem bot t)) +
      eligibleCount bot env rest

/-- Mirrors the spec's words on eligibility (§4.2, §8 *Group containment*):
in a conversation with more than two participants, reply iff the text contains
the handle case-insensitively, with or without a leading `"@"`; otherwise
reply unconditionally. -/
def shouldReplySpec (bot : String) (participantCount : Int) (text : String) : Bool :=
  if participantCount > 2 then
    pyIn ("@" ++ pyLower bot) (pyLower text) || pyIn (pyLower bot) (pyLower text)
  else true

/-- Sample direct conversation (two participants). -/
def sampleDirectThread : Thread := ⟨some "T1", none, none, some 2, none, none, []⟩

/-- Sample group conversation (five participants). -/
def sampleGroupThread : Thread := ⟨some "T2", none, none, some 5, none, none, []⟩

/-- Sample item with a usable id. -/
def sampleItem : Item := ⟨some "w1", none, none, some "hello", none⟩

/-- Environment where every call succeeds and the provider answers "hi there". -/
def sampleEnv : Env :=
  ⟨fun _ => some [sampleItem], fun _ => .resp 200 "" (some "hi there"), fun _ => true⟩

/-- Environment whose provider succeeds (status 200, well-formed body) with a
completion that happens to begin with the reserved marker "[API". -/
def sentinelEnv : Env :=
  ⟨fun _ => some [sampleItem], fun _ => .resp 200 "" (some "[API] best rates in town"),
   fun _ => true⟩

/-- Environment whose provider raises a transport exception on every call. -/
def failingProviderEnv : Env :=
  ⟨fun _ => some [sampleItem], fun _ => .exn "boom", fun _ => true⟩

/-- Item embedded in the inbox listing of the fetch-failing conversation. -/
def embeddedItem : Item := ⟨some "a1", none, none, some "hi", none⟩

/-- Item served by a successful detail fetch. -/
def detailItem : Item := ⟨some "b1", none, none, some "yo", none⟩

/-- Conversation whose detail fetch fails and whose listing embeds an item. -/
def fetchFailThread : Thread := ⟨some "TA", none, none, some 2, none, none, [embeddedItem]⟩

/-- Same conversation with nothing embedded in its listing entry. -/
def fetchFailThreadEmpty : Thread := ⟨some "TA", none, none, some 2, none, none, []⟩

/-- Healthy conversation next to the failing one. -/
def healthyThread : Thread := ⟨some "TB", none, none, some 2, none, none, []⟩

/-- Environment where fetching "TA" raises and every other fetch succeeds. -/
def fetchFailEnv : Env :=
  ⟨fun tid => if tid = "TA" then none else some [detailItem],
   fun _ => .resp 200 "" (some "ok"), fun _ => true⟩

/-- Environment where every state-file save raises an IO error. -/
def saveFailEnv : Env :=
  ⟨fun tid => if tid = "TA" then some [embeddedItem] else some [detailItem],
   fun _ => .resp 200 "" (some "ok"), fun _ => false⟩

/-- Item whose id candidates are all missing or empty. -/
def falsyIdItem : Item := ⟨some "", none, some "", some "hi", none⟩

/-- Item following the provider-failing item in the same conversation. -/
def followupItem : Item := ⟨some "y1", none, none, some "later", none⟩

/-- The processed set after an item loop is the input set together with every
usable id of the list: the loop adds the id of each item it does not skip, and
the ids it skips are already present. -/
theorem process_items_fst (bot : String) (env : Env) (tid : String) (t : Thread) :
    ∀ (items : List Item) (p : Finset String),
    (process_items bot env tid t items p).1 = p ∪ (validItemIds items).toFinset := by
  intro items
  induction items with
  | nil =>
    intro p
    simp [process_items, validItemIds]
  | cons it rest ih =>
    intro p
    cases hm : msgIdOf it with
    | none =>
      simp [process_items, processItem, hm, ih, validItemIds, List.filterMap_cons]
    | some m =>
      by_cases hp : m ∈ p
      · have h1 : p ∪ insert m (validItemIds rest).toFinset
            = p ∪ (validItemIds rest).toFinset := by
          rw [Finset.union_insert, Finset.insert_eq_self.mpr (Finset.mem_union_left _ hp)]
        simp [process_items, processItem, hm, hp, ih, validItemIds, List.filterMap_cons, h1]
      · simp [process_items, processItem, hm, hp, ih, validItemIds, List.filterMap_cons,
          Finset.insert_union, Finset.union_insert]

/-- Skipping is effect-free: when every usable id of the list is already in
the processed set, the item loop changes nothing and emits no event. -/
theorem process_items_all_seen (bot : String) (env : Env) (tid : String) (t : Thread) :
    ∀ (items : List Item) (p : Finset String),
    (∀ m ∈ validItemIds items, m ∈ p) →
    process_items bot env tid t items p = (p, []) := by
  intro items
  induction items with
  | nil =>
    intro p _
    simp [process_items]
  | cons it rest ih =>
    intro p h
    cases hm : msgIdOf it with
    | none =>
      have hids : validItemIds (it :: rest) = validItemIds rest := by
        simp [validItemIds, List.filterMap_cons, hm]
      rw [hids] at h
      simp [process_items, processItem, hm, ih _ h]
    | some m =>
      have hids : validItemIds (it :: rest) = m :: validItemIds rest := by
        simp [validItemIds, List.filterMap_cons, hm]
      rw [hids] at h
      have hp : m ∈ p := h m (List.mem_cons_self m _)
      have hr : ∀ x ∈ validItemIds rest, x ∈ p := fun x hx => h x (List.mem_cons_of_mem _ hx)
      simp [process_items, processItem, hm, hp, ih _ hr]

/-- The item loop over a concatenation runs the first part, then the second
part from the state the first part reached, concatenating the traces. -/
theorem process_items_append (bot : String) (env : Env) (tid : String) (t : Thread) :
    ∀ (l₁ l₂ : List Item) (p : Finset String),
    process_items bot env tid t (l₁ ++ l₂) p =
      ((process_items bot env tid t l₂ (process_items bot env tid t l₁ p).1).1,
       (process_items bot env tid t l₁ p).2 ++
         (process_items bot env tid t l₂ (process_items bot env tid t l₁ p).1).2) := by
  intro l₁
  induction l₁ with
  | nil =>
    intro l₂ p
    simp [process_items]
  | cons it rest ih =>
    intro l₂ p
    simp [process_items, ih, List.append_assoc]

/-- When the provider never yields a reply flagged as an error, the item loop
emits exactly one generation and one send per eligible item, as long as the
usable ids are distinct and none was processed before. -/
theorem process_items_counts (bot : String) (env : Env) (tid : String) (t : Thread)
    (hg : ∀ s, sentinelSkip (ask_mukuu (env.provider s)) = false) :
    ∀ (items : List Item) (p : Finset String),
    (validItemIds items).Nodup →
    (∀ m ∈ validItemIds items, m ∉ p) →
    countSends (process_items bot env tid t items p).2 = items.countP (eligibleItem bot t) ∧
    countGens (process_items bot env tid t items p).2 = items.countP (eligibleItem bot t) := by
  intro items
  induction items with
  | nil =>
    intro p _ _
    simp [process_items, countSends, countGens]
  | cons it rest ih =>
    intro p hnd hdis
    cases hm : msgIdOf it with
    | none =>
      have hids : validItemIds (it :: rest) = validItemIds rest := by
        simp [validItemIds, List.filterMap_cons, hm]
      rw [hids] at hnd hdis
      have helig : eligibleItem bot t it = false := by simp [eligibleItem, hm]
      obtain ⟨hS, hG⟩ := ih p hnd hdis
      constructor
      · simpa [process_items, processItem, hm, countSends, List.countP_cons, helig] using hS
      · simpa [process_items, processItem, hm, countGens, List.countP_cons, helig] using hG
    | some m =>
      have hids : validItemIds (it :: rest) = m :: validItemIds rest := by
        simp [validItemIds, List.filterMap_cons, hm]
      rw [hids] at hnd hdis
      have hp : m ∉ p := hdis m (List.mem_cons_self m _)
      have hmrest : m ∉ validItemIds rest := (List.nodup_cons.mp hnd).1
      have hndr : (validItemIds rest).Nodup := (List.nodup_cons.mp hnd).2
      have hdisr : ∀ x ∈ validItemIds rest, x ∉ insert m p := by
        intro x hx hmem
        rcases Finset.mem_insert.mp hmem with h1 | h1
        · exact hmrest (h1 ▸ hx)
        · exact hdis x (List.mem_cons_of_mem _ hx) h1
      obtain ⟨hS, hG⟩ := ih (insert m p) hndr hdisr
      have hsent := hg (itemText it)
      have helig : eligibleItem bot t it = should_reply bot t (itemText it) := by
        simp [eligibleItem, hm]
      by_cases hsr : should_reply bot t (itemText it) = true
      · constructor
        · simpa [process_items, processItem, hm, hp, hsent, hsr, countSends,
            List.countP_append, List.countP_cons, isSendEvent, helig] using hS
        · simpa [process_items, processItem, hm, hp, hsent, hsr, countGens,
            List.countP_append, List.countP_cons, isGenEvent, helig] using hG
      · have hsr' : should_reply bot t (itemText it) = false := by
          simpa using hsr
        constructor
        · simpa [process_items, processItem, hm, hp, hsr', countSends,
            List.countP_cons, helig] using hS
        · simpa [process_items, processItem, hm, hp, hsr', countGens,
            List.countP_cons, helig] using hG

/-- When every per-thread save succeeds, a cycle never aborts and its final
processed set is the input set together with every usable id it encountered. -/
theorem process_threads_fst (bot : String) (env : Env) (hs : ∀ j, env.saveOk j = true) :
    ∀ (threads : List Thread) (p : Finset String) (k : Nat),
    (process_threads bot env threads p k).1 = p ∪ (cycleIds env threads).toFinset ∧
    (process_threads bot env threads p k).2.2 = false := by
  intro threads
  induction threads with
  | nil =>
    intro p k
    simp [process_threads, cycleIds]
  | cons t rest ih =>
    intro p k
    cases ht : tidOf t with
    | none =>
      simpa [process_threads, ht, cycleIds] using ih p k
    | some tid =>
      have hsk := hs k
      obtain ⟨ih1, ih2⟩ :=
        ih (process_items bot env tid t (threadItems env tid t) p).1 (k + 1)
      rw [process_items_fst] at ih1
      constructor
      · simp [process_threads, ht, hsk, cycleIds, ih1, process_items_fst,
          List.toFinset_append, Finset.union_assoc]
      · simp [process_threads, ht, hsk, ih2]

/-- Per-eligible-item counting over a whole cycle: with distinct unseen ids,
successful saves and an error-free provider, the cycle emits exactly one
generation and one send per eligible item. -/
theorem process_threads_counts (bot : String) (env : Env)
    (hs : ∀ j, env.saveOk j = true)
    (hg : ∀ s, sentinelSkip (ask_mukuu (env.provider s)) = false) :
    ∀ (threads : List Thread) (p : Finset String) (k : Nat),
    (cycleIds env threads).Nodup →
    (∀ m ∈ cycleIds env threads, m ∉ p) →
    countSends (process_threads bot env threads p k).2.1 = eligibleCount bot env threads ∧
    countGens (process_threads bot env threads p k).2.1 = eligibleCount bot env threads := by
  intro threads
  induction threads with
  | nil =>
    intro p k _ _
    simp [process_threads, countSends, countGens, eligibleCount]
  | cons t rest ih =>
    intro p k hnd hdis
    cases ht : tidOf t with
    | none =>
      have hcy : cycleIds env (t :: rest) = cycleIds env rest := by simp [cycleIds, ht]
      rw [hcy] at hnd hdis
      simpa [process_threads, ht, eligibleCount] using ih p k hnd hdis
    | some tid =>
      have hcy : cycleIds env (t :: rest)
          = validItemIds (threadItems env tid t) ++ cycleIds env rest := by
        simp [cycleIds, ht]
      rw [hcy] at hnd hdis
      have hnd1 : (validItemIds (threadItems env tid t)).Nodup := (List.nodup_append.mp hnd).1
      have hnd2 : (cycleIds env rest).Nodup := (List.nodup_append.mp hnd).2.1
      have hdj : (validItemIds (threadItems env tid t)).Disjoint (cycleIds env rest) :=
        (List.nodup_append.mp hnd).2.2
      have hdis1 : ∀ m ∈ validItemIds (threadItems env tid t), m ∉ p := by
        intro m hm
        exact hdis m (List.mem_append_left _ hm)
      have hdis2 : ∀ m ∈ cycleIds env rest,
          m ∉ (process_items bot env tid t (threadItems env tid t) p).1 := by
        intro m hm hmem
        rw [process_items_fst] at hmem
        rcases Finset.mem_union.mp hmem with h1 | h1
        · exact hdis m (List.mem_append_right _ hm) h1
        · exact hdj (List.mem_toFinset.mp h1) hm
      obtain ⟨hS1, hG1⟩ :=
        process_items_counts bot env tid t hg (threadItems env tid t) p hnd1 hdis1
      obtain ⟨hS2, hG2⟩ :=
        ih (process_items bot env tid t (threadItems env tid t) p).1 (k + 1) hnd2 hdis2
      have hsk := hs k
      constructor
      · simp [process_threads, ht, hsk, countSends, List.countP_append, List.countP_cons,
          isSendEvent, eligibleCount]
        rw [countSends] at hS1 hS2
        omega
      · simp [process_threads, ht, hsk, countGens, List.countP_append, List.countP_cons,
          isGenEvent, eligibleCount]
        rw [countGens] at hG1 hG2
        omega

/-- Replay is silent: when every usable id of the scan is already processed,
the cycle emits no generation and no send, whatever the saves do. -/
theorem process_threads_seen_no_events (bot : String) (env : Env) :
    ∀ (threads : List Thread) (p : Finset String) (k : Nat),
    (∀ m ∈ cycleIds env threads, m ∈ p) →
    countSends (process_threads bot env threads p k).2.1 = 0 ∧
    countGens (process_threads bot env threads p k).2.1 = 0 := by
  intro threads
  induction threads with
  | nil =>
    intro p k _
    simp [process_threads, countSends, countGens]
  | cons t rest ih =>
    intro p k h
    cases ht : tidOf t with
    | none =>
      have hcy : cycleIds env (t :: rest) = cycleIds env rest := by simp [cycleIds, ht]
      rw [hcy] at h
      simpa [process_threads, ht] using ih p k h
    | some tid =>
      have hcy : cycleIds env (t :: rest)
          = validItemIds (threadItems env tid t) ++ cycleIds env rest := by
        simp [cycleIds, ht]
      rw [hcy] at h
      have h1 : ∀ m ∈ validItemIds (threadItems env tid t), m ∈ p := by
        intro m hm
        exact h m (List.mem_append_left _ hm)
      have h2 : ∀ m ∈ cycleIds env rest, m ∈ p := by
        intro m hm
        exact h m (List.mem_append_right _ hm)
      have hitems := process_items_all_seen bot env tid t (threadItems env tid t) p h1
      obtain ⟨hS2, hG2⟩ := ih p (k + 1) h2
      by_cases hsk : env.saveOk k = true
      · constructor
        · simpa [process_threads, ht, hsk, hitems, countSends, List.countP_append,
            List.countP_cons, isSendEvent] using hS2
        · simpa [process_threads, ht, hsk, hitems, countGens, List.countP_append,
            List.countP_cons, isGenEvent] using hG2
      · have hsk' : env.saveOk k = false := by simpa using hsk
        constructor
        · simp [process_threads, ht, hsk', hitems, countSends]
        · simp [process_threads, ht, hsk', hitems, countGens]

/-- A non-empty string has a non-empty character list. -/
theorem data_ne_nil {s : String} (h : s ≠ "") : s.data ≠ [] := by
  intro hd
  apply h
  cases s with
  | mk l => cases hd; rfl

/-- C7: persisting a set of item identifiers with `save_processed` and reading
it back with `load_processed` yields exactly the same set. -/
theorem dedup_roundtrip (S : Finset String) :
    load_processed (save_processed S) = S := by
  simp [load_processed, save_processed, readAndParse, Finset.sort_toFinset]

/-- C8: `load_processed` fails soft — on a missing state file and on a file
whose contents cannot be parsed it returns the empty set; being a total Lean
function of the file state, it raises nothing. -/
theorem load_fails_soft :
    load_processed FileState.missing = ∅ ∧
    ∀ raw : String, load_processed (FileState.invalid raw) = ∅ := by
  exact ⟨rfl, fun _ => rfl⟩

/-- C10: an item whose id candidates are all missing or empty is skipped with
no side effects at all — no event is emitted and the processed set is
unchanged, so the item will be re-encountered on every later cycle. -/
theorem falsy_id_no_side_effects (bot : String) (env : Env) (tid : String)
    (t : Thread) (p : Finset String) (it : Item) (h : msgIdOf it = none) :
    processItem bot env tid t p it = (p, []) := by
  simp [processItem, h]

/-- C10 witness: an item carrying only empty-string id candidates is skipped
without side effects. -/
theorem falsy_id_no_side_effects_witness :
    msgIdOf falsyIdItem = none ∧
    processItem "mukuu" sampleEnv "T1" sampleDirectThread ∅ falsyIdItem = (∅, []) :=
  ⟨by decide,
   falsy_id_no_side_effects "mukuu" sampleEnv "T1" sampleDirectThread ∅ falsyIdItem
     (by decide)⟩

/-- C2: with the configured handle non-empty (the process refuses to start
otherwise) and the participant count reported, the eligibility decision of the
code agrees with the spec's description: in a conversation of more than two
participants it replies iff the lowered text contains the lowered handle, with
or without a leading "@" (so never on empty text), and in a direct
conversation it replies unconditionally, empty text included. -/
theorem should_reply_matches_spec (bot : String) (t : Thread) (text : String)
    (n : Int) (hb : bot ≠ "") (hc : t.participants_count = some n) :
    should_reply bot t text = shouldReplySpec bot n text := by
  have hgrp : is_group_thread t = decide (n > 2) := by simp [is_group_thread, hc]
  by_cases h2 : n > 2
  · have hg : is_group_thread t = true := by simp [hgrp, h2]
    rw [should_reply, shouldReplySpec, hg, if_pos rfl, if_pos h2]
    by_cases htext : text = ""
    · subst htext
      have hat : pyIn ("@" ++ pyLower bot) (pyLower "") = false := by
        simp [pyIn, pyLower, charsContain, String.data_append]
      have hbare : pyIn (pyLower bot) (pyLower "") = false := by
        have : (pyLower bot).data ≠ [] := by
          simp [pyLower]
          exact fun hnil => data_ne_nil hb (by simpa using hnil)
        simp [pyIn, pyLower, charsContain] at this ⊢
        simpa using this
      simp [thread_contains_mention, hat, hbare]
    · simp [thread_contains_mention, htext]
  · have hg : is_group_thread t = false := by simp [hgrp, h2]
    rw [should_reply, shouldReplySpec, hg]
    simp [h2]

/-- C2 witness: in a five-participant group the decision on
"hey @mukuu help" coincides with the spec-side predicate. -/
theorem should_reply_matches_spec_witness :
    ("mukuu" : String) ≠ "" ∧
    should_reply "mukuu" sampleGroupThread "hey @mukuu help" =
      shouldReplySpec "mukuu" 5 "hey @mukuu help" :=
  ⟨by decide,
   should_reply_matches_spec "mukuu" sampleGroupThread "hey @mukuu help" 5
     (by decide) rfl⟩

/-- C1: replaying one scan result twice against an initially empty SeenSet —
with every save succeeding, the provider never answering with an error-flagged
reply and the usable ids pairwise distinct — the first pass records exactly
the usable ids it encountered and emits exactly one generation and one send
per eligible item, and the second pass emits no generation and no send: every
already-seen item is skipped with no side effects. -/
theorem replay_idempotent (bot : String) (env : Env) (threads : List Thread)
    (hs : ∀ j, env.saveOk j = true)
    (hg : ∀ s, sentinelSkip (ask_mukuu (env.provider s)) = false)
    (hn : (cycleIds env threads).Nodup) :
    (process_inbox bot env threads ∅).1 = (cycleIds env threads).toFinset ∧
    countSends (process_inbox bot env threads ∅).2.1 = eligibleCount bot env threads ∧
    countGens (process_inbox bot env threads ∅).2.1 = eligibleCount bot env threads ∧
    countSends (process_inbox bot env threads
      (process_inbox bot env threads ∅).1).2.1 = 0 ∧
    countGens (process_inbox bot env threads
      (process_inbox bot env threads ∅).1).2.1 = 0 := by
  have h1 := process_threads_fst bot env hs threads ∅ 0
  have hfst : (process_inbox bot env threads ∅).1 = (cycleIds env threads).toFinset := by
    simpa [process_inbox] using h1.1
  have hcounts := process_threads_counts bot env hs hg threads ∅ 0 hn
    (fun m _ => Finset.not_mem_empty m)
  have hseen : ∀ m ∈ cycleIds env threads, m ∈ (process_inbox bot env threads ∅).1 := by
    intro m hm
    rw [hfst]
    exact List.mem_toFinset.mpr hm
  have h2 := process_threads_seen_no_events bot env threads
    (process_inbox bot env threads ∅).1 0 hseen
  exact ⟨hfst, hcounts.1, hcounts.2, h2.1, h2.2⟩

/-- C1 witness: one direct conversation with one item, replayed twice from
the empty set — one send on the first pass, none on the second. -/
theorem replay_idempotent_witness :
    (cycleIds sampleEnv [sampleDirectThread]).Nodup ∧
    ((process_inbox "mukuu" sampleEnv [sampleDirectThread] ∅).1
        = (cycleIds sampleEnv [sampleDirectThread]).toFinset ∧
      countSends (process_inbox "mukuu" sampleEnv [sampleDirectThread] ∅).2.1
        = eligibleCount "mukuu" sampleEnv [sampleDirectThread] ∧
      countGens (process_inbox "mukuu" sampleEnv [sampleDirectThread] ∅).2.1
        = eligibleCount "mukuu" sampleEnv [sampleDirectThread] ∧
      countSends (process_inbox "mukuu" sampleEnv [sampleDirectThread]
        (process_inbox "mukuu" sampleEnv [sampleDirectThread] ∅).1).2.1 = 0 ∧
      countGens (process_inbox "mukuu" sampleEnv [sampleDirectThread]
        (process_inbox "mukuu" sampleEnv [sampleDirectThread] ∅).1).2.1 = 0) :=
  ⟨by decide,
   replay_idempotent "mukuu" sampleEnv [sampleDirectThread]
     (fun _ => rfl) (fun _ => rfl) (by decide)⟩

/-- C5: when the provider's reply for item X is flagged as an error, X's
processing emits no send — only the generation event when X was eligible —
while X's id is still recorded as processed; and the items after X in the same
conversation are processed from exactly the state X left behind. -/
theorem generation_failure_isolation (bot : String) (env : Env) (tid : String)
    (t : Thread) (X : Item) (m : String) (p q : Finset String)
    (pre post : List Item)
    (hm : msgIdOf X = some m) (hp : m ∉ p)
    (hfail : sentinelSkip (ask_mukuu (env.provider (itemText X))) = true) :
    processItem bot env tid t p X =
      (insert m p,
       if should_reply bot t (itemText X) then [Event.gen (itemText X)] else []) ∧
    process_items bot env tid t (pre ++ X :: post) q =
      ((process_items bot env tid t post
          (processItem bot env tid t (process_items bot env tid t pre q).1 X).1).1,
       (process_items bot env tid t pre q).2 ++
         ((processItem bot env tid t (process_items bot env tid t pre q).1 X).2 ++
           (process_items bot env tid t post
             (processItem bot env tid t (process_items bot env tid t pre q).1 X).1).2)) := by
  constructor
  · by_cases hsr : should_reply bot t (itemText X) = true
    · simp [processItem, hm, hp, hfail, hsr]
    · have hsr' : should_reply bot t (itemText X) = false := by simpa using hsr
      simp [processItem, hm, hp, hsr']
  · rw [process_items_append]
    simp [process_items]

/-- C5 witness: a transport exception on "hello" — the item is marked seen,
only a generation event is emitted, and the following item is processed. -/
theorem generation_failure_isolation_witness :
    sentinelSkip (ask_mukuu (failingProviderEnv.provider (itemText sampleItem))) = true ∧
    (processItem "mukuu" failingProviderEnv "T1" sampleDirectThread ∅ sampleItem =
      (insert "w1" ∅,
       if should_reply "mukuu" sampleDirectThread (itemText sampleItem) then
         [Event.gen (itemText sampleItem)] else []) ∧
     process_items "mukuu" failingProviderEnv "T1" sampleDirectThread
         ([] ++ sampleItem :: [followupItem]) ∅ =
      ((process_items "mukuu" failingProviderEnv "T1" sampleDirectThread [followupItem]
          (processItem "mukuu" failingProviderEnv "T1" sampleDirectThread
            (process_items "mukuu" failingProviderEnv "T1" sampleDirectThread [] ∅).1
            sampleItem).1).1,
       (process_items "mukuu" failingProviderEnv "T1" sampleDirectThread [] ∅).2 ++
         ((processItem "mukuu" failingProviderEnv "T1" sampleDirectThread
             (process_items "mukuu" failingProviderEnv "T1" sampleDirectThread [] ∅).1
             sampleItem).2 ++
           (process_items "mukuu" failingProviderEnv "T1" sampleDirectThread [followupItem]
             (processItem "mukuu" failingProviderEnv "T1" sampleDirectThread
               (process_items "mukuu" failingProviderEnv "T1" sampleDirectThread [] ∅).1
               sampleItem).1).2))) :=
  ⟨by decide,
   generation_failure_isolation "mukuu" failingProviderEnv "T1" sampleDirectThread
     sampleItem "w1" ∅ ∅ [] [followupItem] (by decide) (by decide) (by decide)⟩

/-- C3 counterexample: the provider succeeds (status 200, well-formed body)
with a completion that begins with "[API"; the adapter returns it as a plain
string, the loop's startswith test misclassifies it as an API error, and the
successful generation is never dispatched: one generation event, zero sends. -/
theorem typed_outcome_cex :
    countGens (process_inbox "mukuu" sentinelEnv [sampleDirectThread] ∅).2.1 = 1 ∧
    countSends (process_inbox "mukuu" sentinelEnv [sampleDirectThread] ∅).2.1 = 0 := by
  decide

/-- C3 amended: a generation attempt yields a plain string, with provider
failures encoded by the reserved markers "[API" and "[ERROR"; an unseen
eligible item's reply is dispatched iff the string does not begin with one of
these markers, so a successful reply that happens to begin with one is
silently dropped. -/
theorem dispatch_iff_reply_unflagged (bot : String) (env : Env) (tid : String)
    (t : Thread) (it : Item) (m : String) (p : Finset String)
    (hm : msgIdOf it = some m) (hp : m ∉ p)
    (he : should_reply bot t (itemText it) = true) :
    processItem bot env tid t p it =
      (insert m p,
       if sentinelSkip (ask_mukuu (env.provider (itemText it))) then
         [Event.gen (itemText it)]
       else
         [Event.gen (itemText it),
          Event.send tid (ask_mukuu (env.provider (itemText it)))]) := by
  simp [processItem, hm, hp, he]

/-- C3 amended witness: an ordinary reply "hi there" is dispatched. -/
theorem dispatch_iff_reply_unflagged_witness :
    should_reply "mukuu" sampleDirectThread (itemText sampleItem) = true ∧
    processItem "mukuu" sampleEnv "T1" sampleDirectThread ∅ sampleItem =
      (insert "w1" ∅,
       if sentinelSkip (ask_mukuu (sampleEnv.provider (itemText sampleItem))) then
         [Event.gen (itemText sampleItem)]
       else
         [Event.gen (itemText sampleItem),
          Event.send "T1" (ask_mukuu (sampleEnv.provider (itemText sampleItem)))]) :=
  ⟨by decide,
   dispatch_iff_reply_unflagged "mukuu" sampleEnv "T1" sampleDirectThread sampleItem
     "w1" ∅ (by decide) (by decide) (by decide)⟩

/-- C4 counterexample: on a successful call whose content is whitespace only,
`ask_mukuu` returns the empty string — a reply that is empty after trimming
and is not flagged as any provider error, contradicting both halves of the
claim (no non-empty guarantee, no "empty completion" error). -/
theorem empty_completion_cex :
    ask_mukuu (HttpOutcome.resp 200 "irrelevant" (some "   ")) = "" ∧
    sentinelSkip (ask_mukuu (HttpOutcome.resp 200 "irrelevant" (some "   "))) = false := by
  decide

/-- C4 amended: on a 200 response with string content the adapter returns the
content stripped of surrounding whitespace — possibly the empty string, which
is not classified as a provider error: no "empty completion" outcome exists in
the code. -/
theorem ask_mukuu_success_returns_stripped (bodyText c : String) :
    ask_mukuu (HttpOutcome.resp 200 bodyText (some c)) = pyStrip c ∧
    sentinelSkip (ask_mukuu (HttpOutcome.resp 200 bodyText (some ""))) = false :=
  ⟨rfl, rfl⟩

/-- C6 counterexample: conversation "TA"'s detail fetch fails while "TB"'s
succeeds, yet "TA" is not skipped for the cycle — the loop falls back to the
item embedded in "TA"'s inbox listing entry, replies to it and marks it seen
("a1" processed, two sends in total). -/
theorem fetch_failure_fallback_cex :
    "a1" ∈ (process_inbox "mukuu" fetchFailEnv [fetchFailThread, healthyThread] ∅).1 ∧
    countSends (process_inbox "mukuu" fetchFailEnv
      [fetchFailThread, healthyThread] ∅).2.1 = 2 := by
  decide

/-- C6 amended: a conversation whose detail fetch fails falls back to the
items embedded in its inbox listing entry; only when that embedded list is
empty is the conversation effectively skipped — none of its items is marked
seen and it contributes nothing but its state save — while the following
conversations are processed exactly as if it were absent, one save index
later. -/
theorem fetch_failure_empty_fallback (bot : String) (env : Env) (A : Thread)
    (rest : List Thread) (p : Finset String) (k : Nat) (tidA : String)
    (hA : tidOf A = some tidA) (hfetch : env.fetch tidA = none)
    (hitems : A.items = []) (hsave : env.saveOk k = true) :
    process_threads bot env (A :: rest) p k =
      ((process_threads bot env rest p (k + 1)).1,
       Event.save p :: (process_threads bot env rest p (k + 1)).2.1,
       (process_threads bot env rest p (k + 1)).2.2) := by
  simp [process_threads, hA, threadItems, hfetch, hitems, process_items, hsave]

/-- C6 amended witness: "TA" fails to fetch with nothing embedded; "TB" is
still processed, from the unchanged processed set. -/
theorem fetch_failure_empty_fallback_witness :
    fetchFailEnv.fetch "TA" = none ∧
    process_threads "mukuu" fetchFailEnv [fetchFailThreadEmpty, healthyThread] ∅ 0 =
      ((process_threads "mukuu" fetchFailEnv [healthyThread] ∅ 1).1,
       Event.save ∅ :: (process_threads "mukuu" fetchFailEnv [healthyThread] ∅ 1).2.1,
       (process_threads "mukuu" fetchFailEnv [healthyThread] ∅ 1).2.2) :=
  ⟨rfl,
   fetch_failure_empty_fallback "mukuu" fetchFailEnv fetchFailThreadEmpty
     [healthyThread] ∅ 0 "TA" rfl rfl rfl rfl⟩

/-- C9 counterexample: every state-file save fails; the first conversation is
processed and its unguarded `save_processed` call then raises, aborting the
cycle before the second conversation — "a1" is seen, "b1" is not, and the
error escapes `process_inbox` (to be caught only by `main_loop`). -/
theorem save_failure_aborts_cex :
    (process_inbox "mukuu" saveFailEnv [fetchFailThread, healthyThread] ∅).2.2 = true ∧
    "a1" ∈ (process_inbox "mukuu" saveFailEnv [fetchFailThread, healthyThread] ∅).1 ∧
    "b1" ∉ (process_inbox "mukuu" saveFailEnv [fetchFailThread, healthyThread] ∅).1 := by
  decide

/-- C9 amended: per-item failures (provider errors, flagged replies) and
per-conversation fetch failures are absorbed where they occur and never abort
the cycle; the only early exit of the cycle body is a state-file save failure
(`save_processed` is unguarded), which `main_loop` catches at the cycle
boundary — when every save succeeds the cycle never aborts. -/
theorem no_abort_without_save_failure (bot : String) (env : Env)
    (threads : List Thread) (p : Finset String) (k : Nat)
    (hs : ∀ j, env.saveOk j = true) :
    (process_threads bot env threads p k).2.2 = false :=
  (process_threads_fst bot env hs threads p k).2

/-- C9 amended witness: with saves succeeding, a cycle containing a fetch
failure still runs to completion without aborting. -/
theorem no_abort_without_save_failure_witness :
    (process_threads "mukuu" fetchFailEnv [fetchFailThread, healthyThread] ∅ 0).2.2
      = false :=
  no_abort_without_save_failure "mukuu" fetchFailEnv [fetchFailThread, healthyThread]
    ∅ 0 (fun _ => rfl)

end MukuuBot
